import Mathlib

/-!
Verification development for the dagger trading-connectivity core.

Shallow embedding of the order/trader/market state-machine layer:
  * `src/cex/okexv5/spot_market.go`   — spot market readiness
  * `src/cex/okexv5/future_market.go` — derivative market readiness and price alignment
  * `src/cex/okexv5/contract_order.go`— position-side selection for hedge mode
  * `src/cex/binance/spot_trader.go`  — trader readiness, order creation, balance
    reconciliation, error lock, background sweep

Go `decimal.Decimal` values are embedded as `ℚ`; Go maps keyed by client order
id are embedded as association lists; package-global state (the binance
`exchangeReady` flag) is passed explicitly.  Parts of the repository that the
traders call but whose source is not present (balance implementation, spot
order object, logger) are modelled from the specification and are marked as
such in their doc comments.
-/

namespace Dagger

/-- Order direction, from `common.OrderDir` (only the two values the embedded
code distinguishes: `OrderDir_Buy` and `OrderDir_Sell`). -/
inductive OrderDir where
  | buy
  | sell
deriving DecidableEq, Repr

/-! ## okexv5 markets -/

/-- Embeds `okexv5.SpotMarket` (src/cex/okexv5/spot_market.go): the only feed
freshness flag it carries is the depth flag inherited from `CommonMarket`. -/
structure OkxSpotMarket where
  depthOK : Bool
  baseCcy : String
  quoteCcy : String
deriving DecidableEq, Repr

/-- `SpotMarket.Ready` (spot_market.go line 55): `return m.depthOK`. -/
def OkxSpotMarket.Ready (m : OkxSpotMarket) : Bool :=
  m.depthOK

/-- Embeds `okexv5.FutureMarket` (src/cex/okexv5/future_market.go): the four
feed freshness flags and the venue price-limit fields.  `maxBuyPrice` and
`minSellPrice` are Go `decimal.Decimal` fields whose zero value is 0; they are
assigned only by `onPriceLimitResp`. -/
structure OkxFutureMarket where
  depthOK : Bool
  markpriceOK : Bool
  priceLimitOK : Bool
  fundingFeeOK : Bool
  maxBuyPrice : ℚ
  minSellPrice : ℚ
  tickSize : ℚ
deriving DecidableEq, Repr

/-- `FutureMarket.Ready` (future_market.go line 159):
`return m.depthOK && m.fundingFeeOK && m.markpriceOK && m.priceLimitOK`. -/
def OkxFutureMarket.Ready (m : OkxFutureMarket) : Bool :=
  m.depthOK && m.fundingFeeOK && m.markpriceOK && m.priceLimitOK

/-- Modelled from the spec: `CommonMarket.AlignPrice` is not under src/ (only
its callers are).  Spec §4.2: "rounds to the instrument's tick size in the
direction that does not cross the spread inappropriately for maker-only
orders" — a buy price is rounded down to a tick multiple, a sell price rounded
up; the `makeOnly` flag does not change the rounding direction further. -/
def commonAlignPrice (tick price : ℚ) (dir : OrderDir) (makeOnly : Bool) : ℚ :=
  if tick ≤ 0 then price
  else
    match dir with
    | OrderDir.buy => (⌊price / tick⌋ : ℚ) * tick
    | OrderDir.sell => (⌈price / tick⌉ : ℚ) * tick

/-- `FutureMarket.AlignPrice` (future_market.go lines 195-203): base tick
alignment via `CommonMarket.AlignPrice`, then an unconditional comparison with
the price-limit fields — there is no `priceLimitOK` guard in the source. -/
def OkxFutureMarket.AlignPrice (m : OkxFutureMarket) (price : ℚ) (dir : OrderDir)
    (makeOnly : Bool) : ℚ :=
  let aligned := commonAlignPrice m.tickSize price dir makeOnly
  if dir = OrderDir.buy ∧ aligned > m.maxBuyPrice then m.maxBuyPrice
  else if dir = OrderDir.sell ∧ aligned < m.minSellPrice then m.minSellPrice
  else aligned

/-- The claim's wording of `AlignPrice`: tick alignment first, then clamping
to the venue limits "applied only when such limits are known", i.e. only when
the price-limit feed has delivered (`priceLimitOK`).  Stated here only to be
compared with `OkxFutureMarket.AlignPrice`, which is the source's behaviour. -/
def OkxFutureMarket.AlignPriceClaimed (m : OkxFutureMarket) (price : ℚ)
    (dir : OrderDir) (makeOnly : Bool) : ℚ :=
  let aligned := commonAlignPrice m.tickSize price dir makeOnly
  if m.priceLimitOK then
    if dir = OrderDir.buy ∧ aligned > m.maxBuyPrice then m.maxBuyPrice
    else if dir = OrderDir.sell ∧ aligned < m.minSellPrice then m.minSellPrice
    else aligned
  else aligned

/-! ## binance spot trader -/

/-- Modelled from the spec: `common.BalanceImpl` is not under src/ (only its
callers are).  Spec §3/§4.1: a balance tracks "rights" (equity including
provisional adjustments) for one currency and exposes
`Ready() (bool, reason string)`; the readiness outcome is carried here as
explicit fields since only its outputs reach the trader. -/
structure Balance where
  ccy : String
  rights : ℚ
  readyOk : Bool
  readyReason : String
deriving DecidableEq, Repr

/-- `BalanceImpl.Ready`, as consumed by the trader: a pair of success flag and
reason string. -/
def Balance.Ready (b : Balance) : Bool × String :=
  (b.readyOk, b.readyReason)

/-- Modelled from the spec: `BalanceImpl.RecordTempRights(delta, at)` is not
under src/.  Spec §4.1: "applies a provisional equity adjustment effective
immediately". -/
def Balance.RecordTempRights (b : Balance) (delta : ℚ) (utime : Int) : Balance :=
  { b with rights := b.rights + delta }

/-- Modelled from the spec: `binance.SpotMarket` is not under src/ (the trader
only consults its `Ready()` and `UnreadyReason()`), so those two outputs are
carried as fields. -/
structure BnSpotMarket where
  readyOk : Bool
  notReadyWhy : String
deriving DecidableEq, Repr

/-- `binance.SpotMarket.Ready`, as consumed by the trader. -/
def BnSpotMarket.Ready (m : BnSpotMarket) : Bool :=
  m.readyOk

/-- `binance.SpotMarket.UnreadyReason`, as consumed by the trader. -/
def BnSpotMarket.UnreadyReason (m : BnSpotMarket) : String :=
  m.notReadyWhy

/-- A reference to a registered order observer: the trader registers itself
(`AddObserver(t)`, the internal balance-reconciliation observer) and then the
caller's observer (`AddObserver(obs)`). -/
inductive ObsRef where
  | internal
  | external (id : Nat)
deriving DecidableEq, Repr

/-- Modelled from the spec: `binance.SpotOrder` is not under src/ (only the
trader that creates and stores it is).  Spec §3: an order carries price,
amount, direction, make-only flag, purpose tag, filled amount, a `Finished`
terminal flag, and an ordered observer list. -/
structure SpotOrder where
  cltOrderId : String
  price : ℚ
  amount : ℚ
  dir : OrderDir
  makeOnly : Bool
  purpose : String
  filled : ℚ
  Finished : Bool
  observers : List ObsRef
deriving DecidableEq, Repr

/-- The order produced by a successful `SpotOrder.Init`. -/
def SpotOrder.fresh (cid : String) (price amount : ℚ) (dir : OrderDir)
    (makeOnly : Bool) (purpose : String) : SpotOrder :=
  { cltOrderId := cid, price := price, amount := amount, dir := dir,
    makeOnly := makeOnly, purpose := purpose, filled := 0, Finished := false,
    observers := [] }

/-- Modelled from the spec: `SpotOrder.Init` is not under src/.  Spec §4.3:
"validates inputs (non-zero amount, price within venue-specific range) and
assigns a fresh client order id; returns false (refusing to submit) if
validation fails".  The spot trader's price range is [0, MaxInt32]
(spot_trader.go lines 159-165); the fresh client order id is supplied as an
argument since its generator is external global state.  The source call site
(spot_trader.go line 176) passes no reduce-only flag, so `Init` takes none. -/
def SpotOrder.Init (cid : String) (price amount : ℚ) (dir : OrderDir)
    (makeOnly : Bool) (purpose : String) : Option SpotOrder :=
  if 0 < amount ∧ 0 ≤ price ∧ price ≤ 2147483647 then
    some (SpotOrder.fresh cid price amount dir makeOnly purpose)
  else none

/-- `Order.AddObserver` appends to the ordered observer list (spec §4.3:
"deterministic, insertion-ordered callback delivery"). -/
def SpotOrder.AddObserver (o : SpotOrder) (r : ObsRef) : SpotOrder :=
  { o with observers := o.observers ++ [r] }

/-- A normalized order snapshot (`binance.OrderSnapshot`), restricted to the
fields the trader's subscription callback reads plus the spec §4.3 state
drivers (cumulative fill, terminal status) consumed by the order. -/
structure OrderSnapshot where
  stratergyId : Int
  clientOrderID : String
  cumFilled : ℚ
  terminal : Bool
deriving DecidableEq, Repr

/-- Modelled from the spec: `SpotOrder.onSnapshot` is not under src/.  Spec
§4.3: deal emission is strictly monotonic on the cumulative fill amount and a
terminal status marks `Finished = true`; it never touches trader-level state
such as the error lock. -/
def SpotOrder.onSnapshot (o : SpotOrder) (os : OrderSnapshot) : SpotOrder :=
  { o with filled := max o.filled os.cumFilled,
           Finished := o.Finished || os.terminal }

/-- A fill event, from `common.Deal`: direction (`deal.O.GetDir()` in the
source, held directly here), filled amount, fill price, fill timestamp. -/
structure Deal where
  dir : OrderDir
  amount : ℚ
  price : ℚ
  utime : Int
deriving DecidableEq, Repr

/-- Embeds `binance.SpotTrader` (src/cex/binance/spot_trader.go).  The
live-order map (Go `map[string]*SpotOrder`) is an association list keyed by
client order id; the mutexes and the log prefix are not represented.  The
package-global `exchangeReady` flag is passed explicitly to the operations
that read it. -/
structure SpotTrader where
  market : BnSpotMarket
  stratergyId : Int
  baseBalance : Balance
  quoteBalance : Balance
  orders : List (String × SpotOrder)
  errorlock : Bool
  finished : Bool
deriving DecidableEq, Repr

/-- `SpotTrader.Ready` (spot_trader.go lines 132-136). -/
def SpotTrader.Ready (t : SpotTrader) (exchangeReady : Bool) : Bool :=
  t.market.Ready && (t.baseBalance.Ready).1 && (t.quoteBalance.Ready).1
    && exchangeReady && !t.errorlock

/-- `SpotTrader.UnreadyReason` (spot_trader.go lines 138-157). -/
def SpotTrader.UnreadyReason (t : SpotTrader) (exchangeReady : Bool) : String :=
  if !t.market.Ready then t.market.UnreadyReason
  else if !(t.baseBalance.Ready).1 then
    "base balance(" ++ t.baseBalance.ccy ++ ") not ready: " ++ (t.baseBalance.Ready).2
  else if !(t.quoteBalance.Ready).1 then
    "quote balance(" ++ t.quoteBalance.ccy ++ ") not ready: " ++ (t.quoteBalance.Ready).2
  else if !exchangeReady then "exchange not ready"
  else ""

/-- `SpotTrader.OnDeal` (spot_trader.go lines 95-104): records the equity
change a fill causes — buy adds the amount to the base balance and subtracts
amount×price from the quote balance; sell does the inverse. -/
def SpotTrader.OnDeal (t : SpotTrader) (d : Deal) : SpotTrader :=
  match d.dir with
  | OrderDir.buy =>
    { t with baseBalance := t.baseBalance.RecordTempRights d.amount d.utime,
             quoteBalance := t.quoteBalance.RecordTempRights (-(d.amount * d.price)) d.utime }
  | OrderDir.sell =>
    { t with baseBalance := t.baseBalance.RecordTempRights (-d.amount) d.utime,
             quoteBalance := t.quoteBalance.RecordTempRights (d.amount * d.price) d.utime }

/-- The order-snapshot subscription callback registered in `SpotTrader.Init`
(spot_trader.go lines 54-70): a snapshot carrying a positive strategy id
different from the trader's own sets the error lock (the accompanying
`logger.LogPanic` call is modelled from spec §7 as non-raising logging:
"unrecoverable consistency errors escalate to a halt-trading flag rather than
a raised exception"); then the snapshot is routed to the order with the
matching client order id, if any. -/
def SpotTrader.onOrderSnapshot (t : SpotTrader) (os : OrderSnapshot) : SpotTrader :=
  let t1 := if 0 < os.stratergyId ∧ os.stratergyId ≠ t.stratergyId then
              { t with errorlock := true }
            else t
  { t1 with orders := t1.orders.map (fun p =>
      if p.1 = os.clientOrderID then (p.1, p.2.onSnapshot os) else p) }

/-- One iteration of the background sweep started in `SpotTrader.Init`
(spot_trader.go lines 72-84): under the write lock, delete every order whose
`Finished` flag is set. -/
def SpotTrader.sweep (t : SpotTrader) : SpotTrader :=
  { t with orders := t.orders.filter (fun p => !p.2.Finished) }

/-- `SpotTrader.MakeOrder` (spot_trader.go lines 167-192).  If the trader is
not ready it logs, pauses and returns nil (the pause has no functional
content here); otherwise it builds a `SpotOrder`, registers it in the
live-order map, attaches the trader's own observer first and the caller's
observer second, and submits it.  The returned order and the map entry are
one Go pointer, so the map holds the order with its observers attached.  The
fresh client order id is passed explicitly (see `SpotOrder.Init`), and the
`reduceOnly` parameter is accepted but — exactly as in the source — never
forwarded. -/
def SpotTrader.MakeOrder (t : SpotTrader) (exchangeReady : Bool) (cid : String)
    (price amount : ℚ) (dir : OrderDir) (makeOnly reduceOnly : Bool)
    (purpose : String) (obs : Nat) : Option SpotOrder × SpotTrader :=
  if t.Ready exchangeReady then
    match SpotOrder.Init cid price amount dir makeOnly purpose with
    | some o =>
      let o2 := (o.AddObserver ObsRef.internal).AddObserver (ObsRef.external obs)
      (some o2, { t with orders := (o2.cltOrderId, o2) :: t.orders })
    | none => (none, t)
  else (none, t)

/-- The trader-level events of the embedded code: an order snapshot arriving,
a `MakeOrder` call, one sweep iteration, a deal reconciliation. -/
inductive TraderEvent where
  | snapshot (os : OrderSnapshot)
  | makeOrder (exchangeReady : Bool) (cid : String) (price amount : ℚ)
      (dir : OrderDir) (makeOnly reduceOnly : Bool) (purpose : String) (obs : Nat)
  | sweep
  | deal (d : Deal)

/-- The state change each event causes on the trader. -/
def SpotTrader.step (t : SpotTrader) : TraderEvent → SpotTrader
  | TraderEvent.snapshot os => t.onOrderSnapshot os
  | TraderEvent.makeOrder ex cid p a dir mo ro pu ob =>
      (t.MakeOrder ex cid p a dir mo ro pu ob).2
  | TraderEvent.sweep => t.sweep
  | TraderEvent.deal d => t.OnDeal d

/-- Running a sequence of trader events. -/
def SpotTrader.run (t : SpotTrader) (evs : List TraderEvent) : SpotTrader :=
  evs.foldl SpotTrader.step t

/-! ## okexv5 contract order -/

/-- The exchange position mode, from `okexv5api.PositionMode`: `ls` is the
long/short (hedge) mode `PositonMode_LS`; `net` stands for any other mode. -/
inductive PositionMode where
  | ls
  | net
deriving DecidableEq, Repr

/-- `ContractOrder.getPosSide` (src/cex/okexv5/contract_order.go lines 44-65):
`posLong`/`posShort` are `o.trader.pos.Long()`/`o.trader.pos.Short()`, `size`
is `o.Size`, `reduceOnly` is `o.ReduceOnly`.  Only the long/short position
mode needs the parameter; buying closes short when the short position covers
the size or the order is reduce-only, otherwise opens long — symmetrically
for selling. -/
def ContractOrder.getPosSide (posMode : PositionMode) (dir : OrderDir)
    (posLong posShort size : ℚ) (reduceOnly : Bool) : String :=
  if posMode = PositionMode.ls then
    match dir with
    | OrderDir.buy =>
      if posShort ≥ size ∨ reduceOnly = true then "short" else "long"
    | OrderDir.sell =>
      if posLong ≥ size ∨ reduceOnly = true then "long" else "short"
  else ""

/-! ## Sample states used by the witnesses -/

/-- A ready base balance. -/
def exBalanceBase : Balance :=
  { ccy := "BTC", rights := 2, readyOk := true, readyReason := "" }

/-- A ready quote balance. -/
def exBalanceQuote : Balance :=
  { ccy := "USDT", rights := 1000, readyOk := true, readyReason := "" }

/-- A ready trader for strategy 1 with an empty live-order map. -/
def exTrader : SpotTrader :=
  { market := { readyOk := true, notReadyWhy := "" }, stratergyId := 1,
    baseBalance := exBalanceBase, quoteBalance := exBalanceQuote,
    orders := [], errorlock := false, finished := false }

/-- The ready trader with its error lock set. -/
def exTraderLocked : SpotTrader :=
  { exTrader with errorlock := true }

/-- The trader with an unready market. -/
def exTraderNotReady : SpotTrader :=
  { exTrader with market := { readyOk := false, notReadyWhy := "depth not ready" } }

/-- An order snapshot tagged with a foreign strategy id (2 ≠ 1). -/
def exSnapshotForeign : OrderSnapshot :=
  { stratergyId := 2, clientOrderID := "c1", cumFilled := 0, terminal := false }

/-- A short event run: one sweep, one buy deal, one `MakeOrder` attempt. -/
def exEvents : List TraderEvent :=
  [TraderEvent.sweep,
   TraderEvent.deal { dir := OrderDir.buy, amount := 1, price := 100, utime := 5 },
   TraderEvent.makeOrder true "c2" 100 1 OrderDir.buy false false "grid" 3]

/-! ## Helper lemmas -/

/-- A trader with the error lock set is never ready, whatever the other flags. -/
theorem ready_false_of_errorlock (t : SpotTrader) (ex : Bool)
    (h : t.errorlock = true) : t.Ready ex = false := by
  simp [SpotTrader.Ready, h]

/-- `MakeOrder` on a not-ready trader yields no order and leaves the trader —
including its live-order map — unchanged. -/
theorem makeOrder_of_not_ready (t : SpotTrader) (ex : Bool) (cid : String)
    (p a : ℚ) (dir : OrderDir) (mo ro : Bool) (pu : String) (ob : Nat)
    (h : t.Ready ex = false) :
    t.MakeOrder ex cid p a dir mo ro pu ob = (none, t) := by
  simp [SpotTrader.MakeOrder, h]

/-- No trader event ever clears the error lock. -/
theorem step_errorlock_mono (t : SpotTrader) (e : TraderEvent)
    (h : t.errorlock = true) : (t.step e).errorlock = true := by
  cases e with
  | snapshot os =>
    simp only [SpotTrader.step, SpotTrader.onOrderSnapshot]
    split <;> simp [h]
  | makeOrder ex cid p a dir mo ro pu ob =>
    simp only [SpotTrader.step]
    rw [makeOrder_of_not_ready t ex cid p a dir mo ro pu ob
      (ready_false_of_errorlock t ex h)]
    exact h
  | sweep => simpa [SpotTrader.step, SpotTrader.sweep] using h
  | deal d =>
    simp only [SpotTrader.step, SpotTrader.OnDeal]
    cases d.dir <;> simp [h]

/-- The error lock survives any sequence of trader events. -/
theorem run_errorlock_mono (evs : List TraderEvent) :
    ∀ t : SpotTrader, t.errorlock = true → (t.run evs).errorlock = true := by
  induction evs with
  | nil => intro t h; exact h
  | cons e evs ih => intro t h; exact ih (t.step e) (step_errorlock_mono t e h)

/-- A snapshot bearing a positive foreign strategy id sets the error lock. -/
theorem onOrderSnapshot_sets_errorlock (t : SpotTrader) (os : OrderSnapshot)
    (h1 : 0 < os.stratergyId) (h2 : os.stratergyId ≠ t.stratergyId) :
    (t.onOrderSnapshot os).errorlock = true := by
  simp only [SpotTrader.onOrderSnapshot]
  rw [if_pos ⟨h1, h2⟩]

end Dagger

namespace Dagger

/-- C1: for every combination of the per-feed freshness booleans, `Ready()` is
the AND of exactly the flags the product type requires — a spot market is
ready iff `depthOK` holds (no other flag exists on it to consult), and a
future market is ready iff `depthOK`, `markpriceOK`, `priceLimitOK` and
`fundingFeeOK` all hold. -/
theorem market_ready_and_law (d mk pl ff : Bool) (b q : String) (mbp msp tick : ℚ) :
    (OkxSpotMarket.mk d b q).Ready = d
    ∧ (OkxFutureMarket.mk d mk pl ff mbp msp tick).Ready = (d && mk && pl && ff) := by
  refine ⟨rfl, ?_⟩
  show (d && ff && mk && pl) = (d && mk && pl && ff)
  cases d <;> cases ff <;> cases mk <;> cases pl <;> rfl

/-- C5 counterexample: the claim says the price-limit clamp is "applied only
when such limits are known", but the source clamps unconditionally.  On a
market whose price-limit feed has never delivered (`priceLimitOK = false`,
limit fields still the zero value 0), a buy at 100 with tick size 1 is
clamped down to `maxBuyPrice = 0` by the source, while the claim's reading
leaves it at 100. -/
theorem alignPrice_clamps_when_limits_unknown :
    (OkxFutureMarket.mk true true false true 0 0 1).AlignPrice 100 OrderDir.buy false = 0
    ∧ (OkxFutureMarket.mk true true false true 0 0 1).AlignPriceClaimed 100 OrderDir.buy false = 100
    ∧ (OkxFutureMarket.mk true true false true 0 0 1).AlignPrice 100 OrderDir.buy false
      ≠ (OkxFutureMarket.mk true true false true 0 0 1).AlignPriceClaimed 100 OrderDir.buy false := by
  norm_num [OkxFutureMarket.AlignPrice, OkxFutureMarket.AlignPriceClaimed, commonAlignPrice]

/-- C5 amended: `AlignPrice` applies the base tick alignment first and then
always clamps against the current limit fields, with no dependence on whether
the price-limit feed has delivered — a buy result is `min` of the aligned
price and `maxBuyPrice`, a sell result is `max` of the aligned price and
`minSellPrice` (the fields being 0 until the first limit update). -/
theorem alignPrice_clamp_law (m : OkxFutureMarket) (price : ℚ) (makeOnly : Bool) :
    m.AlignPrice price OrderDir.buy makeOnly
      = min (commonAlignPrice m.tickSize price OrderDir.buy makeOnly) m.maxBuyPrice
    ∧ m.AlignPrice price OrderDir.sell makeOnly
      = max (commonAlignPrice m.tickSize price OrderDir.sell makeOnly) m.minSellPrice
    ∧ m.AlignPrice price OrderDir.buy makeOnly
      = (OkxFutureMarket.mk m.depthOK m.markpriceOK true m.fundingFeeOK m.maxBuyPrice
          m.minSellPrice m.tickSize).AlignPrice price OrderDir.buy makeOnly := by
  refine ⟨?_, ?_, rfl⟩
  · rcases le_or_lt (commonAlignPrice m.tickSize price OrderDir.buy makeOnly) m.maxBuyPrice with h | h
    · simp [OkxFutureMarket.AlignPrice, not_lt.mpr h, min_eq_left h]
    · simp [OkxFutureMarket.AlignPrice, h, min_eq_right h.le]
  · rcases le_or_lt m.minSellPrice (commonAlignPrice m.tickSize price OrderDir.sell makeOnly) with h | h
    · simp [OkxFutureMarket.AlignPrice, not_lt.mpr h, max_eq_left h]
    · simp [OkxFutureMarket.AlignPrice, h, max_eq_right h.le]

/-- C2: an order snapshot whose strategy id is positive and differs from the
trader's own sets the error lock, and from then on — across any sequence of
further trader events — `Ready()` is false and every `MakeOrder` call yields
no order. -/
theorem errorlock_permanent_halt (t : SpotTrader) (os : OrderSnapshot)
    (h1 : 0 < os.stratergyId) (h2 : os.stratergyId ≠ t.stratergyId)
    (evs : List TraderEvent) (ex : Bool) :
    (t.onOrderSnapshot os).errorlock = true
    ∧ ((t.onOrderSnapshot os).run evs).Ready ex = false
    ∧ ∀ (cid : String) (p a : ℚ) (dir : OrderDir) (mo ro : Bool) (pu : String) (ob : Nat),
        (((t.onOrderSnapshot os).run evs).MakeOrder ex cid p a dir mo ro pu ob).1 = none := by
  have hl := onOrderSnapshot_sets_errorlock t os h1 h2
  have hr := run_errorlock_mono evs _ hl
  refine ⟨hl, ready_false_of_errorlock _ ex hr, ?_⟩
  intro cid p a dir mo ro pu ob
  rw [makeOrder_of_not_ready _ ex cid p a dir mo ro pu ob
    (ready_false_of_errorlock _ ex hr)]

/-- C2 witness: for strategy 1, a snapshot tagged with strategy 2 locks the
trader; after a sweep, a deal and a `MakeOrder` attempt, the trader is still
not ready and a further `MakeOrder` returns no order. -/
theorem errorlock_permanent_halt_witness :
    (0 : Int) < exSnapshotForeign.stratergyId
    ∧ exSnapshotForeign.stratergyId ≠ exTrader.stratergyId
    ∧ (exTrader.onOrderSnapshot exSnapshotForeign).errorlock = true
    ∧ ((exTrader.onOrderSnapshot exSnapshotForeign).run exEvents).Ready true = false
    ∧ (((exTrader.onOrderSnapshot exSnapshotForeign).run exEvents).MakeOrder
        true "c3" 100 1 OrderDir.buy false false "grid" 4).1 = none :=
  ⟨by decide, by decide,
   (errorlock_permanent_halt exTrader exSnapshotForeign (by decide) (by decide)
     exEvents true).1,
   (errorlock_permanent_halt exTrader exSnapshotForeign (by decide) (by decide)
     exEvents true).2.1,
   (errorlock_permanent_halt exTrader exSnapshotForeign (by decide) (by decide)
     exEvents true).2.2 "c3" 100 1 OrderDir.buy false false "grid" 4⟩

/-- C3: a buy deal of amount A at price P moves base rights by +A and quote
rights by −A×P; a sell deal moves them by −A and +A×P; in both cases the
quantity (base rights × P + quote rights) is unchanged. -/
theorem deal_rights_reconciliation (t : SpotTrader) (d : Deal) :
    (t.OnDeal d).baseBalance.rights
      = t.baseBalance.rights
        + (match d.dir with
           | OrderDir.buy => d.amount
           | OrderDir.sell => -d.amount)
    ∧ (t.OnDeal d).quoteBalance.rights
      = t.quoteBalance.rights
        + (match d.dir with
           | OrderDir.buy => -(d.amount * d.price)
           | OrderDir.sell => d.amount * d.price)
    ∧ (t.OnDeal d).baseBalance.rights * d.price + (t.OnDeal d).quoteBalance.rights
      = t.baseBalance.rights * d.price + t.quoteBalance.rights := by
  rcases d with ⟨dir, A, P, u⟩
  cases dir <;>
    refine ⟨by simp [SpotTrader.OnDeal, Balance.RecordTempRights],
            by simp [SpotTrader.OnDeal, Balance.RecordTempRights], ?_⟩ <;>
    · simp only [SpotTrader.OnDeal, Balance.RecordTempRights]
      ring

/-- C4: `MakeOrder` on a not-ready trader returns no order and leaves the
trader — in particular its live-order map — exactly as it was. -/
theorem makeOrder_not_ready_no_effect (t : SpotTrader) (ex : Bool) (cid : String)
    (p a : ℚ) (dir : OrderDir) (mo ro : Bool) (pu : String) (ob : Nat)
    (h : t.Ready ex = false) :
    (t.MakeOrder ex cid p a dir mo ro pu ob).1 = none
    ∧ (t.MakeOrder ex cid p a dir mo ro pu ob).2.orders = t.orders := by
  rw [makeOrder_of_not_ready t ex cid p a dir mo ro pu ob h]
  exact ⟨rfl, rfl⟩

/-- C4 witness: `MakeOrder(price=100, amount=1, Buy)` on the trader whose
market is unready returns no order and does not touch the order map. -/
theorem makeOrder_not_ready_no_effect_witness :
    exTraderNotReady.Ready true = false
    ∧ (exTraderNotReady.MakeOrder true "c1" 100 1 OrderDir.buy false false "grid" 7).1 = none
    ∧ (exTraderNotReady.MakeOrder true "c1" 100 1 OrderDir.buy false false "grid" 7).2.orders
      = exTraderNotReady.orders :=
  ⟨by decide,
   (makeOrder_not_ready_no_effect exTraderNotReady true "c1" 100 1 OrderDir.buy
     false false "grid" 7 (by decide)).1,
   (makeOrder_not_ready_no_effect exTraderNotReady true "c1" 100 1 OrderDir.buy
     false false "grid" 7 (by decide)).2⟩

/-- C6: a successful `MakeOrder` attaches the trader's internal
balance-reconciliation observer strictly before the caller's observer, so the
order's observer list is exactly [internal, external]. -/
theorem makeOrder_observer_order (t : SpotTrader) (ex : Bool) (cid : String)
    (p a : ℚ) (dir : OrderDir) (mo ro : Bool) (pu : String) (ob : Nat)
    (hR : t.Ready ex = true)
    (hI : (SpotOrder.Init cid p a dir mo pu).isSome = true) :
    ((t.MakeOrder ex cid p a dir mo ro pu ob).1).map SpotOrder.observers
      = some [ObsRef.internal, ObsRef.external ob] := by
  have hc : 0 < a ∧ 0 ≤ p ∧ p ≤ 2147483647 := by
    by_contra hc
    simp [SpotOrder.Init, hc] at hI
  simp [SpotTrader.MakeOrder, hR, SpotOrder.Init, hc, SpotOrder.AddObserver,
    SpotOrder.fresh]

/-- C6 witness: on the ready trader, a valid order's observers come out as
[internal, external 9]. -/
theorem makeOrder_observer_order_witness :
    exTrader.Ready true = true
    ∧ (SpotOrder.Init "c1" 100 1 OrderDir.buy true "grid").isSome = true
    ∧ ((exTrader.MakeOrder true "c1" 100 1 OrderDir.buy true false "grid" 9).1).map
        SpotOrder.observers = some [ObsRef.internal, ObsRef.external 9] :=
  ⟨by decide, by decide,
   makeOrder_observer_order exTrader true "c1" 100 1 OrderDir.buy true false
     "grid" 9 (by decide) (by decide)⟩

/-- C7: one sweep iteration keeps exactly the orders whose `Finished` flag is
unset: an entry survives the sweep iff it was present before and not
finished. -/
theorem sweep_removes_exactly_finished (t : SpotTrader) (p : String × SpotOrder) :
    p ∈ t.sweep.orders ↔ p ∈ t.orders ∧ p.2.Finished = false := by
  simp [SpotTrader.sweep, List.mem_filter]

/-- C8: the trader is ready iff the market is ready, both balances are ready,
the global exchange-connectivity flag is set, and the error lock is unset. -/
theorem trader_ready_iff (t : SpotTrader) (ex : Bool) :
    t.Ready ex = true ↔
      (t.market.Ready = true ∧ (t.baseBalance.Ready).1 = true
        ∧ (t.quoteBalance.Ready).1 = true ∧ ex = true ∧ t.errorlock = false) := by
  simp [SpotTrader.Ready, Bool.and_eq_true, and_assoc, Bool.not_eq_true']

/-- C9: the spot `MakeOrder` path ignores `reduceOnly` entirely — two calls
differing only in that flag return the same order and the same trader state —
while the contract-order path's position-side selection does depend on it
(reduce-only flips a buy from opening long to closing short). -/
theorem spot_makeOrder_reduceOnly_independent (t : SpotTrader) (ex : Bool)
    (cid : String) (p a : ℚ) (dir : OrderDir) (mo : Bool) (pu : String)
    (ob : Nat) (ro1 ro2 : Bool) :
    t.MakeOrder ex cid p a dir mo ro1 pu ob = t.MakeOrder ex cid p a dir mo ro2 pu ob
    ∧ ContractOrder.getPosSide PositionMode.ls OrderDir.buy 0 0 1 true
      ≠ ContractOrder.getPosSide PositionMode.ls OrderDir.buy 0 0 1 false :=
  ⟨rfl, by decide⟩

/-- C10: when everything but the error lock is ready, `Ready()` is false yet
`UnreadyReason()` is the empty string — the error lock is never reported as
an unreadiness reason. -/
theorem errorlock_unreported_reason (t : SpotTrader) (ex : Bool)
    (h1 : t.market.Ready = true) (h2 : (t.baseBalance.Ready).1 = true)
    (h3 : (t.quoteBalance.Ready).1 = true) (h4 : ex = true)
    (h5 : t.errorlock = true) :
    t.Ready ex = false ∧ t.UnreadyReason ex = "" := by
  constructor
  · exact ready_false_of_errorlock t ex h5
  · simp [SpotTrader.UnreadyReason, h1, h2, h3, h4]

/-- C10 witness: the locked-but-otherwise-ready trader is not ready and gives
the empty unreadiness reason. -/
theorem errorlock_unreported_reason_witness :
    exTraderLocked.market.Ready = true
    ∧ (exTraderLocked.baseBalance.Ready).1 = true
    ∧ (exTraderLocked.quoteBalance.Ready).1 = true
    ∧ exTraderLocked.errorlock = true
    ∧ exTraderLocked.Ready true = false
    ∧ exTraderLocked.UnreadyReason true = "" :=
  ⟨by decide, by decide, by decide, by decide,
   (errorlock_unreported_reason exTraderLocked true (by decide) (by decide)
     (by decide) rfl (by decide)).1,
   (errorlock_unreported_reason exTraderLocked true (by decide) (by decide)
     (by decide) rfl (by decide)).2⟩

end Dagger
